import Mathlib

/-!
Verification of the QuickSight Group resource adapter
(`internal/service/quicksight/group.go`).

The file shallowly embeds the Go source: the identifier parser
`GroupParseID` (built on `strings.SplitN(id, "/", 3)`), the identifier
format used by `resourceGroupCreate` (`fmt.Sprintf("%s/%s/%s", ...)`),
the four lifecycle handlers with the SDK calls abstracted as function
parameters, and the `namespace` attribute validator.  Remote calls are
modelled as `Except`-returning functions supplied by the caller;
terraform's `ResourceData` is modelled as an explicit record of the
schema attributes plus the identifier.
-/

namespace QuickSightGroup

/-- `const DefaultGroupNamespace = "default"`. -/
def DefaultGroupNamespace : String := "default"

/-- Splits a character list at the first occurrence of `sep`:
`some (pre, post)` with `cs = pre ++ sep :: post` and `sep ∉ pre`,
or `none` when `sep` does not occur.  This is the single step of Go's
`strings.SplitN` generic splitter for a one-character separator. -/
def splitFirst (sep : Char) : List Char → Option (List Char × List Char)
  | [] => none
  | c :: cs =>
    if c = sep then some ([], cs)
    else
      match splitFirst sep cs with
      | none => none
      | some (pre, post) => some (c :: pre, post)

/-- Go's `strings.SplitN(s, sep, n)` for a one-character separator and
`n > 0`: at most `n` substrings, the last one holding the unsplit
remainder (`n = 0` yields no substrings, as in Go). -/
def goSplitN (sep : Char) : Nat → List Char → List (List Char)
  | 0, _ => []
  | 1, cs => [cs]
  | n + 2, cs =>
    match splitFirst sep cs with
    | none => [cs]
    | some (pre, post) => pre :: goSplitN sep (n + 1) post

/-- `GroupParseID` from group.go:
`parts := strings.SplitN(id, "/", 3)`; error when
`len(parts) < 3 || parts[0] == "" || parts[1] == "" || parts[2] == ""`,
otherwise the three parts.  (Go's short-circuit indexing of `parts`
under the `len` guard is rendered with the total `List.getD`.) -/
def GroupParseID (id : String) : Except String (String × String × String) :=
  let parts := goSplitN '/' 3 id.data
  if parts.length < 3 ∨ parts.getD 0 [] = [] ∨ parts.getD 1 [] = [] ∨ parts.getD 2 [] = [] then
    Except.error ("unexpected format of ID (" ++ id ++ "), expected AWS_ACCOUNT_ID/NAMESPACE/GROUP_NAME")
  else
    Except.ok (String.mk (parts.getD 0 []), String.mk (parts.getD 1 []), String.mk (parts.getD 2 []))

/-- `fmt.Sprintf("%s/%s/%s", awsAccountID, namespace, groupName)`,
the identifier format used by `resourceGroupCreate`. -/
def groupID (awsAccountID ns groupName : String) : String :=
  awsAccountID ++ "/" ++ ns ++ "/" ++ groupName

example : GroupParseID "a/b/c" = Except.ok ("a", "b", "c") := rfl
example : GroupParseID "a/b/c/d" = Except.ok ("a", "b", "c/d") := rfl
example : GroupParseID "a/b//c" = Except.ok ("a", "b", "/c") := rfl
example : (GroupParseID "a//c").isOk = false := by decide
example : (GroupParseID "noslashes").isOk = false := by decide
example : (GroupParseID "a/b/").isOk = false := by decide
example : groupID "a" "b" "c" = "a/b/c" := by decide

/-! ## SDK request/response shapes and error model

The `quicksight` SDK structs used by group.go.  Go's `*string` fields
are `Option String`; the struct field `Namespace` is rendered `ns`
(`namespace` is a Lean keyword). -/

/-- An error returned by a QuickSight SDK call, as far as group.go
inspects it: `tfawserr.ErrCodeEquals(err, quicksight.ErrCodeResourceNotFoundException)`
distinguishes exactly the not-found code from everything else. -/
inductive AWSError where
  | resourceNotFound
  | other (msg : String)
deriving DecidableEq, Repr

/-- `tfawserr.ErrCodeEquals(err, quicksight.ErrCodeResourceNotFoundException)`
on a non-nil error. -/
def isResourceNotFound : AWSError → Bool
  | .resourceNotFound => true
  | .other _ => false

/-- Error text used when a failed SDK call is formatted into a
diagnostic with `%s`. -/
def awsErrMsg : AWSError → String
  | .resourceNotFound => "ResourceNotFoundException"
  | .other msg => msg

/-- `aws.StringValue`: dereference a `*string`, `nil` mapping to `""`. -/
def stringValue (v : Option String) : String := v.getD ""

/-- `quicksight.Group` (the fields group.go reads). -/
structure Group where
  arn : Option String
  groupName : Option String
  description : Option String
deriving DecidableEq, Repr

/-- `quicksight.CreateGroupInput` (fields set by `resourceGroupCreate`). -/
structure CreateGroupInput where
  awsAccountId : String
  ns : String
  groupName : String
  description : Option String
deriving DecidableEq, Repr

/-- `quicksight.CreateGroupOutput` (the field read by `resourceGroupCreate`). -/
structure CreateGroupOutput where
  group : Group
deriving DecidableEq, Repr

/-- `quicksight.DescribeGroupInput`. -/
structure DescribeGroupInput where
  awsAccountId : String
  ns : String
  groupName : String
deriving DecidableEq, Repr

/-- `quicksight.DescribeGroupOutput` (the field read by `resourceGroupRead`). -/
structure DescribeGroupOutput where
  group : Group
deriving DecidableEq, Repr

/-- `quicksight.UpdateGroupInput` (fields set by `resourceGroupUpdate`). -/
structure UpdateGroupInput where
  awsAccountId : String
  ns : String
  groupName : String
  description : Option String
deriving DecidableEq, Repr

/-- `quicksight.DeleteGroupInput`. -/
structure DeleteGroupInput where
  awsAccountId : String
  ns : String
  groupName : String
deriving DecidableEq, Repr

/-! ## Resource state and handlers

`schema.ResourceData` is modelled as the identifier (`d.Id()`) plus the
five schema attributes (`d.Set` targets).  Each handler takes its SDK
call(s) as a function parameter (the `conn` client) and returns the
diagnostics list (error messages appended by `sdkdiag.AppendErrorf`)
alongside the updated state. -/

/-- The mutable resource state handle: `d.Id()` and the attributes the
handlers write with `d.Set`.  Attribute values are `Option` so that
"never written" is distinguishable. -/
structure GroupResourceState where
  id : String
  arn : Option String
  awsAccountID : Option String
  groupName : Option String
  description : Option String
  ns : Option String
deriving DecidableEq, Repr

/-- `resourceGroupRead`: parse `d.Id()`, describe, and either clear the
id (not-found on a non-new resource), report an error, or populate the
attributes from the response and the parsed identifier.  `isNew` is
`d.IsNewResource()`. -/
def resourceGroupRead (isNew : Bool)
    (describeCall : DescribeGroupInput → Except AWSError DescribeGroupOutput)
    (s : GroupResourceState) : List String × GroupResourceState :=
  match GroupParseID s.id with
  | .error e => (["reading QuickSight Group (" ++ s.id ++ "): " ++ e], s)
  | .ok (awsAccountID, ns, groupName) =>
    match describeCall ⟨awsAccountID, ns, groupName⟩ with
    | .error err =>
      if !isNew && isResourceNotFound err then
        ([], { s with id := "" })
      else
        (["reading QuickSight Group (" ++ s.id ++ "): " ++ awsErrMsg err], s)
    | .ok resp =>
      ([], { s with
          arn := resp.group.arn,
          awsAccountID := some awsAccountID,
          groupName := resp.group.groupName,
          description := resp.group.description,
          ns := some ns })

/-- The configured attribute values visible to `resourceGroupCreate`.
`awsAccountIDCfg` and `description` are the results of `d.GetOk`
(`none` when the attribute is unset/zero); `nsCfg` is `none` when the
configuration omits `namespace`, in which case the schema `Default`
makes `d.Get("namespace")` return `DefaultGroupNamespace`. -/
structure CreateConfig where
  awsAccountIDCfg : Option String
  nsCfg : Option String
  groupName : String
  description : Option String
deriving DecidableEq, Repr

/-- `resourceGroupCreate`: resolve account id (configured else the
provider's `meta.(*conns.AWSClient).AccountID`) and namespace
(`d.Get` with the schema default already applied), issue the create
call, and on success set the id to
`fmt.Sprintf("%s/%s/%s", awsAccountID, namespace, aws.StringValue(resp.Group.GroupName))`
and run `resourceGroupRead` (during which `d.IsNewResource()` is true). -/
def resourceGroupCreate (providerAccountID : String) (cfg : CreateConfig)
    (createCall : CreateGroupInput → Except AWSError CreateGroupOutput)
    (describeCall : DescribeGroupInput → Except AWSError DescribeGroupOutput)
    (s : GroupResourceState) : List String × GroupResourceState :=
  let awsAccountID := match cfg.awsAccountIDCfg with
    | some v => v
    | none => providerAccountID
  let ns := match cfg.nsCfg with
    | some v => v
    | none => DefaultGroupNamespace
  let createOpts : CreateGroupInput :=
    { awsAccountId := awsAccountID, ns := ns,
      groupName := cfg.groupName, description := cfg.description }
  match createCall createOpts with
  | .error err => (["creating QuickSight Group: " ++ awsErrMsg err], s)
  | .ok resp =>
    resourceGroupRead true describeCall
      { s with id := groupID awsAccountID ns (stringValue resp.group.groupName) }

/-- `resourceGroupUpdate`: parse `d.Id()`, issue the update call with
the parsed components and the `d.GetOk("description")` value
(`descriptionOk`), and on success run `resourceGroupRead` (the resource
is not new during update).  The third component records the
`UpdateGroupInput` actually sent, `none` when no call was made. -/
def resourceGroupUpdate (descriptionOk : Option String)
    (updateCall : UpdateGroupInput → Except AWSError Unit)
    (describeCall : DescribeGroupInput → Except AWSError DescribeGroupOutput)
    (s : GroupResourceState) :
    List String × GroupResourceState × Option UpdateGroupInput :=
  match GroupParseID s.id with
  | .error e => (["updating QuickSight Group (" ++ s.id ++ "): " ++ e], s, none)
  | .ok (awsAccountID, ns, groupName) =>
    let updateOpts : UpdateGroupInput :=
      { awsAccountId := awsAccountID, ns := ns,
        groupName := groupName, description := descriptionOk }
    match updateCall updateOpts with
    | .error err =>
      (["updating QuickSight Group " ++ s.id ++ ": " ++ awsErrMsg err], s, some updateOpts)
    | .ok _ =>
      let (d, s') := resourceGroupRead false describeCall s
      (d, s', some updateOpts)

/-- `resourceGroupDelete`: parse `d.Id()`, issue the delete call; a
not-found error is swallowed, any other error is reported.  The state
handle is not mutated, so only the diagnostics are returned. -/
def resourceGroupDelete
    (deleteCall : DeleteGroupInput → Except AWSError Unit)
    (s : GroupResourceState) : List String :=
  match GroupParseID s.id with
  | .error e => ["deleting QuickSight Group (" ++ s.id ++ "): " ++ e]
  | .ok (awsAccountID, ns, groupName) =>
    match deleteCall ⟨awsAccountID, ns, groupName⟩ with
    | .error err =>
      if isResourceNotFound err then []
      else ["deleting QuickSight Group " ++ s.id ++ ": " ++ awsErrMsg err]
    | .ok _ => []

/-! ## Namespace validator

`validation.All(validation.StringLenBetween(1, 63), validation.StringMatch(^[a-zA-Z0-9._-]*$, ...))`.
Go's `len` counts bytes while `String.data.length` counts characters;
the two validators have the same accept set either way: a string the
regex accepts is ASCII, where bytes and characters coincide, and a
string where they differ contains a non-ASCII character, which the
regex rejects. -/

/-- Membership in the regex character class `[a-zA-Z0-9._-]`. -/
def namespaceCharOK (c : Char) : Bool :=
  ('a' ≤ c && c ≤ 'z') || ('A' ≤ c && c ≤ 'Z') || ('0' ≤ c && c ≤ '9') ||
    c = '.' || c = '_' || c = '-'

/-- `validation.StringLenBetween(lo, hi)`. -/
def stringLenBetween (lo hi : Nat) (v : String) : Bool :=
  lo ≤ v.data.length && v.data.length ≤ hi

/-- `validation.StringMatch` with `^[a-zA-Z0-9._-]*$`. -/
def stringMatchNamespacePattern (v : String) : Bool :=
  v.data.all namespaceCharOK

/-- The `ValidateFunc` of the `namespace` attribute: `validation.All`
of the two validators above (true iff no diagnostics are produced). -/
def namespaceValidate (v : String) : Bool :=
  stringLenBetween 1 63 v && stringMatchNamespacePattern v

example : namespaceValidate "default" = true := by decide
example : namespaceValidate "" = false := by decide
example : namespaceValidate "a/b" = false := by decide
example : namespaceValidate "A-b_c.9" = true := by decide

/-- The identifiers `GroupParseID` accepts, characterised at the spec
level: an account id and a namespace, each non-empty and free of `/`,
followed by a non-empty remainder (which may itself contain `/`). -/
def wellFormedID (id : String) : Prop :=
  ∃ a n g : List Char, a ≠ [] ∧ n ≠ [] ∧ g ≠ [] ∧ '/' ∉ a ∧ '/' ∉ n ∧
    id.data = a ++ '/' :: (n ++ '/' :: g)

/-! ## Lemmas about the splitter -/

lemma not_mem_of_splitFirst_eq_none {sep : Char} :
    ∀ {cs : List Char}, splitFirst sep cs = none → sep ∉ cs := by
  intro cs
  induction cs with
  | nil => intro _ h; exact absurd h (List.not_mem_nil sep)
  | cons c cs ih =>
    intro h hmem
    rw [splitFirst] at h
    by_cases hc : c = sep
    · simp [hc] at h
    · rcases hsf : splitFirst sep cs with _ | ⟨pre, post⟩
      · rcases List.mem_cons.mp hmem with h1 | h1
        · exact hc h1.symm
        · exact ih hsf h1
      · rw [hsf] at h
        simp [hc] at h

lemma splitFirst_append {sep : Char} :
    ∀ (pre post : List Char), sep ∉ pre →
      splitFirst sep (pre ++ sep :: post) = some (pre, post) := by
  intro pre
  induction pre with
  | nil => intro post _; simp [splitFirst]
  | cons c cs ih =>
    intro post h
    have hc : ¬ c = sep := by
      intro hcs
      exact h (by rw [hcs]; exact List.mem_cons_self sep cs)
    rw [List.cons_append, splitFirst,
      ih post (fun hm => h (List.mem_cons_of_mem c hm))]
    simp [hc]

lemma splitFirst_eq_some {sep : Char} :
    ∀ {cs pre post : List Char}, splitFirst sep cs = some (pre, post) →
      cs = pre ++ sep :: post ∧ sep ∉ pre := by
  intro cs
  induction cs with
  | nil => intro pre post h; simp [splitFirst] at h
  | cons c cs ih =>
    intro pre post h
    rw [splitFirst] at h
    by_cases hc : c = sep
    · simp [hc] at h
      obtain ⟨h1, h2⟩ := h
      subst h1; subst h2
      simp [hc]
    · rcases hsf : splitFirst sep cs with _ | ⟨p, q⟩
      · rw [hsf] at h
        simp [hc] at h
      · rw [hsf] at h
        simp [hc] at h
        obtain ⟨h1, h2⟩ := h
        obtain ⟨hcs, hmem⟩ := ih hsf
        subst h1; subst h2; subst hcs
        constructor
        · simp
        · intro hm
          rcases List.mem_cons.mp hm with h3 | h3
          · exact hc h3.symm
          · exact hmem h3

lemma goSplitN_three (sep : Char) (cs : List Char) :
    goSplitN sep 3 cs =
      match splitFirst sep cs with
      | none => [cs]
      | some (pre, post) => pre :: goSplitN sep 2 post := rfl

lemma goSplitN_two (sep : Char) (cs : List Char) :
    goSplitN sep 2 cs =
      match splitFirst sep cs with
      | none => [cs]
      | some (pre, post) => pre :: [post] := rfl

/-- Complete case analysis of `strings.SplitN(s, "/", 3)`: one part
(no slash), two parts (one slash), or three parts with the third
holding the unsplit remainder. -/
lemma goSplitN_three_cases (cs : List Char) :
    ('/' ∉ cs ∧ goSplitN '/' 3 cs = [cs]) ∨
    (∃ p q, cs = p ++ '/' :: q ∧ '/' ∉ p ∧ '/' ∉ q ∧
      goSplitN '/' 3 cs = [p, q]) ∨
    (∃ p q r, cs = p ++ '/' :: (q ++ '/' :: r) ∧ '/' ∉ p ∧ '/' ∉ q ∧
      goSplitN '/' 3 cs = [p, q, r]) := by
  rcases h1 : splitFirst '/' cs with _ | ⟨p, rest⟩
  · exact Or.inl ⟨not_mem_of_splitFirst_eq_none h1, by rw [goSplitN_three, h1]⟩
  · obtain ⟨hcs, hp⟩ := splitFirst_eq_some h1
    rcases h2 : splitFirst '/' rest with _ | ⟨q, r⟩
    · refine Or.inr (Or.inl ⟨p, rest, hcs, hp, not_mem_of_splitFirst_eq_none h2, ?_⟩)
      simp only [goSplitN_three, h1, goSplitN_two, h2]
    · obtain ⟨hrest, hq⟩ := splitFirst_eq_some h2
      refine Or.inr (Or.inr ⟨p, q, r, ?_, hp, hq, ?_⟩)
      · rw [hcs, hrest]
      · simp only [goSplitN_three, h1, goSplitN_two, h2]

/-! ## Lemmas about `GroupParseID` -/

lemma data_ne_nil {s : String} (h : s ≠ "") : s.data ≠ [] := by
  intro hd
  exact h (String.ext hd)

/-- `GroupParseID` on an explicitly decomposed identifier whose first
two components are non-empty and slash-free and whose remainder is
non-empty: it returns exactly the three components. -/
lemma groupParseID_format (a n g : List Char) (ha : a ≠ []) (hn : n ≠ []) (hg : g ≠ [])
    (ha2 : '/' ∉ a) (hn2 : '/' ∉ n) :
    GroupParseID ⟨a ++ '/' :: (n ++ '/' :: g)⟩ = Except.ok (⟨a⟩, ⟨n⟩, ⟨g⟩) := by
  have hsplit : goSplitN '/' 3 (a ++ '/' :: (n ++ '/' :: g)) = [a, n, g] := by
    rw [goSplitN_three, splitFirst_append a _ ha2]
    simp only [goSplitN_two, splitFirst_append n g hn2]
  simp [GroupParseID, hsplit, ha, hn, hg]

/-- If `GroupParseID` succeeds, the identifier is well formed. -/
lemma groupParseID_ok_wellFormed {id : String} {r : String × String × String}
    (h : GroupParseID id = Except.ok r) : wellFormedID id := by
  rcases goSplitN_three_cases id.data with ⟨_, hsp⟩ | ⟨p, q, _, _, _, hsp⟩ |
    ⟨p, q, r2, hcs, hp, hq, hsp⟩
  · simp [GroupParseID, hsp] at h
  · simp [GroupParseID, hsp] at h
  · by_cases hp0 : p = []
    · simp [GroupParseID, hsp, hp0] at h
    · by_cases hq0 : q = []
      · simp [GroupParseID, hsp, hq0] at h
      · by_cases hr0 : r2 = []
        · simp [GroupParseID, hsp, hr0] at h
        · exact ⟨p, q, r2, hp0, hq0, hr0, hp, hq, hcs⟩

/-- If the identifier is well formed, `GroupParseID` succeeds. -/
lemma groupParseID_isOk_of_wellFormed {id : String} (h : wellFormedID id) :
    ∃ r, GroupParseID id = Except.ok r := by
  obtain ⟨a, n, g, ha, hn, hg, ha2, hn2, hdata⟩ := h
  refine ⟨(⟨a⟩, ⟨n⟩, ⟨g⟩), ?_⟩
  have hid : id = ⟨a ++ '/' :: (n ++ '/' :: g)⟩ := by
    cases id
    exact congrArg String.mk hdata
  rw [hid]
  exact groupParseID_format a n g ha hn hg ha2 hn2

/-- `GroupParseID` fails exactly on the identifiers that are not well
formed. -/
lemma groupParseID_error_iff (id : String) :
    (∃ e, GroupParseID id = Except.error e) ↔ ¬ wellFormedID id := by
  constructor
  · rintro ⟨e, he⟩ hw
    obtain ⟨r, hr⟩ := groupParseID_isOk_of_wellFormed hw
    rw [he] at hr
    simp at hr
  · intro hw
    rcases hok : GroupParseID id with e | r
    · exact ⟨e, rfl⟩
    · exact absurd (groupParseID_ok_wellFormed hok) hw

lemma not_wellFormed_slashslash : ¬ wellFormedID "a//g" := by
  intro hw
  obtain ⟨r, hr⟩ := groupParseID_isOk_of_wellFormed hw
  have hok : (GroupParseID "a//g").isOk = false := by decide
  rw [hr] at hok
  simp [Except.isOk, Except.toBool] at hok

/-- `(s ++ "/" ++ t ++ "/" ++ u).data` decomposed at the character
level. -/
lemma groupID_data (a n g : String) :
    (groupID a n g).data = a.data ++ '/' :: (n.data ++ '/' :: g.data) := by
  simp [groupID, String.data_append]

/-- Format-then-parse on strings: the shared core of the round-trip
theorems. -/
lemma groupParseID_append (a n g : String) (ha : a ≠ "") (hn : n ≠ "") (hg : g ≠ "")
    (ha2 : '/' ∉ a.data) (hn2 : '/' ∉ n.data) :
    GroupParseID (groupID a n g) = Except.ok (a, n, g) := by
  have hid : groupID a n g = ⟨a.data ++ '/' :: (n.data ++ '/' :: g.data)⟩ :=
    String.ext (groupID_data a n g)
  rw [hid]
  exact groupParseID_format a.data n.data g.data
    (data_ne_nil ha) (data_ne_nil hn) (data_ne_nil hg) ha2 hn2

/-! ## Claim theorems -/

/-- C1 (counterexample): the claim is false as stated.  The identifier
`"a/b//c"` does not consist of exactly three non-empty `/`-separated
segments (its segments are `a`, `b`, the empty segment, and `c`), yet
`GroupParseID` returns it with a nil error, parsing the group name as
`"/c"`. -/
theorem groupParseID_claim_counterexample :
    List.splitOn '/' ("a/b//c".data) = [['a'], ['b'], [], ['c']] ∧
    GroupParseID "a/b//c" = Except.ok ("a", "b", "/c") :=
  ⟨by decide, rfl⟩

/-- C1 (amended): for every identifier that is not of the form
`A ++ "/" ++ N ++ "/" ++ G` with `A`, `N` non-empty and `/`-free and
`G` non-empty, `GroupParseID` returns a non-nil error, and
read/update/delete surface it as a format diagnostic (one error
message, no state change, no remote call). -/
theorem groupParseID_malformed_rejected (s : GroupResourceState)
    (h : ¬ wellFormedID s.id) (isNew : Bool)
    (dc : DescribeGroupInput → Except AWSError DescribeGroupOutput)
    (uc : UpdateGroupInput → Except AWSError Unit)
    (delc : DeleteGroupInput → Except AWSError Unit)
    (dOk : Option String) :
    (∃ e, GroupParseID s.id = Except.error e) ∧
    (∃ m, resourceGroupRead isNew dc s = ([m], s)) ∧
    (∃ m, resourceGroupUpdate dOk uc dc s = ([m], s, none)) ∧
    (∃ m, resourceGroupDelete delc s = [m]) := by
  obtain ⟨e, he⟩ := (groupParseID_error_iff s.id).mpr h
  exact ⟨⟨e, he⟩,
    ⟨"reading QuickSight Group (" ++ s.id ++ "): " ++ e,
      by simp [resourceGroupRead, he]⟩,
    ⟨"updating QuickSight Group (" ++ s.id ++ "): " ++ e,
      by simp [resourceGroupUpdate, he]⟩,
    ⟨"deleting QuickSight Group (" ++ s.id ++ "): " ++ e,
      by simp [resourceGroupDelete, he]⟩⟩

/-- C1 witness: the amended theorem applied to the malformed
identifier `"a//g"`. -/
theorem groupParseID_malformed_rejected_witness :
    (∃ e, GroupParseID "a//g" = Except.error e) ∧
    (∃ m, resourceGroupRead false (fun _ => Except.error AWSError.resourceNotFound)
        ⟨"a//g", none, none, none, none, none⟩ =
      ([m], ⟨"a//g", none, none, none, none, none⟩)) ∧
    (∃ m, resourceGroupUpdate none (fun _ => Except.ok ())
        (fun _ => Except.error AWSError.resourceNotFound)
        ⟨"a//g", none, none, none, none, none⟩ =
      ([m], ⟨"a//g", none, none, none, none, none⟩, none)) ∧
    (∃ m, resourceGroupDelete (fun _ => Except.ok ())
        ⟨"a//g", none, none, none, none, none⟩ = [m]) :=
  groupParseID_malformed_rejected ⟨"a//g", none, none, none, none, none⟩
    not_wellFormed_slashslash false
    (fun _ => Except.error AWSError.resourceNotFound)
    (fun _ => Except.ok ()) (fun _ => Except.ok ()) none

/-- C2: for non-empty, `/`-free account id, namespace and group name,
parsing the formatted identifier `"A/N/G"` returns exactly
`(A, N, G)` with a nil error. -/
theorem groupParseID_roundtrip (a n g : String)
    (ha : a ≠ "") (hn : n ≠ "") (hg : g ≠ "")
    (ha2 : '/' ∉ a.data) (hn2 : '/' ∉ n.data) (_hg2 : '/' ∉ g.data) :
    GroupParseID (groupID a n g) = Except.ok (a, n, g) :=
  groupParseID_append a n g ha hn hg ha2 hn2

/-- C2 witness: round trip on a concrete triple. -/
theorem groupParseID_roundtrip_witness :
    GroupParseID (groupID "123456789012" "default" "analysts") =
      Except.ok ("123456789012", "default", "analysts") :=
  groupParseID_roundtrip "123456789012" "default" "analysts"
    (by decide) (by decide) (by decide) (by decide) (by decide) (by decide)

/-- C10: the parser splits on at most the first two separators, so for
non-empty `/`-free `A` and `N` and any non-empty remainder `R` (which
may contain further `/` characters), `GroupParseID (A ++ "/" ++ N ++ "/" ++ R)`
succeeds and returns `R` in full as the group-name component. -/
theorem groupParseID_remainder_absorbs_slashes (a n r : String)
    (ha : a ≠ "") (hn : n ≠ "") (hr : r ≠ "")
    (ha2 : '/' ∉ a.data) (hn2 : '/' ∉ n.data) :
    GroupParseID (a ++ "/" ++ n ++ "/" ++ r) = Except.ok (a, n, r) :=
  groupParseID_append a n r ha hn hr ha2 hn2

/-- C10 witness: a remainder holding a further `/` is returned whole. -/
theorem groupParseID_remainder_absorbs_slashes_witness :
    GroupParseID ("123456789012" ++ "/" ++ "ns" ++ "/" ++ "team/admins") =
      Except.ok ("123456789012", "ns", "team/admins") :=
  groupParseID_remainder_absorbs_slashes "123456789012" "ns" "team/admins"
    (by decide) (by decide) (by decide) (by decide) (by decide)

/-- The follow-up read launched by create runs with
`d.IsNewResource() = true` and never changes the identifier: the
not-found branch that clears the id requires a non-new resource, and
every other branch leaves `d.Id()` alone. -/
lemma read_new_preserves_id
    (dc : DescribeGroupInput → Except AWSError DescribeGroupOutput)
    (s : GroupResourceState) :
    ((resourceGroupRead true dc s).2).id = s.id := by
  rcases hp : GroupParseID s.id with e | ⟨a, n, g⟩
  · simp [resourceGroupRead, hp]
  · rcases hd : dc ⟨a, n, g⟩ with err | resp
    · simp [resourceGroupRead, hp, hd]
    · simp [resourceGroupRead, hp, hd]

/-- C3: after a successful create call, the stored identifier is
account id + `"/"` + namespace + `"/"` + the group name echoed by the
response, where the account id is the configured one if set (else the
provider's) and the namespace is the configured one (else
`"default"`); in particular, with namespace omitted the middle segment
is `"default"`. -/
theorem create_sets_id (providerAccountID : String) (cfg : CreateConfig)
    (createCall : CreateGroupInput → Except AWSError CreateGroupOutput)
    (describeCall : DescribeGroupInput → Except AWSError DescribeGroupOutput)
    (s : GroupResourceState) (resp : CreateGroupOutput)
    (h : createCall
      { awsAccountId := cfg.awsAccountIDCfg.getD providerAccountID,
        ns := cfg.nsCfg.getD DefaultGroupNamespace,
        groupName := cfg.groupName,
        description := cfg.description } = Except.ok resp) :
    ((resourceGroupCreate providerAccountID cfg createCall describeCall s).2).id =
      cfg.awsAccountIDCfg.getD providerAccountID ++ "/" ++
        cfg.nsCfg.getD DefaultGroupNamespace ++ "/" ++
        stringValue resp.group.groupName ∧
    (cfg.nsCfg = none →
      ((resourceGroupCreate providerAccountID cfg createCall describeCall s).2).id =
        cfg.awsAccountIDCfg.getD providerAccountID ++ "/" ++ "default" ++ "/" ++
          stringValue resp.group.groupName) := by
  have hmain :
      ((resourceGroupCreate providerAccountID cfg createCall describeCall s).2).id =
        cfg.awsAccountIDCfg.getD providerAccountID ++ "/" ++
          cfg.nsCfg.getD DefaultGroupNamespace ++ "/" ++
          stringValue resp.group.groupName := by
    rcases cfg with ⟨accCfg, nsCfg, gName, desc⟩
    rcases accCfg with _ | acc <;> rcases nsCfg with _ | nsv <;>
      simp only [Option.getD] at h ⊢ <;>
      simp [resourceGroupCreate, h, read_new_preserves_id, groupID]
  refine ⟨hmain, fun hns => ?_⟩
  rw [hns] at hmain
  simpa [DefaultGroupNamespace] using hmain

/-- C3 witness: create with namespace and account id omitted stores
`provider-account/default/echoed-name`. -/
theorem create_sets_id_witness :
    ((resourceGroupCreate "999999999999" ⟨none, none, "team", none⟩
        (fun _ => Except.ok ⟨⟨some "arn:aws:quicksight::999999999999:group/default/team",
          some "team", none⟩⟩)
        (fun _ => Except.error AWSError.resourceNotFound)
        ⟨"", none, none, none, none, none⟩).2).id =
      "999999999999" ++ "/" ++ "default" ++ "/" ++ "team" ∧
    ((none : Option String) = none →
      ((resourceGroupCreate "999999999999" ⟨none, none, "team", none⟩
          (fun _ => Except.ok ⟨⟨some "arn:aws:quicksight::999999999999:group/default/team",
            some "team", none⟩⟩)
          (fun _ => Except.error AWSError.resourceNotFound)
          ⟨"", none, none, none, none, none⟩).2).id =
        "999999999999" ++ "/" ++ "default" ++ "/" ++ "team") :=
  create_sets_id "999999999999" ⟨none, none, "team", none⟩
    (fun _ => Except.ok ⟨⟨some "arn:aws:quicksight::999999999999:group/default/team",
      some "team", none⟩⟩)
    (fun _ => Except.error AWSError.resourceNotFound)
    ⟨"", none, none, none, none, none⟩
    ⟨⟨some "arn:aws:quicksight::999999999999:group/default/team", some "team", none⟩⟩
    rfl

/-- C4: if the remote create call fails, the create handler returns an
error diagnostic and the whole state handle — the identifier included —
is left untouched. -/
theorem create_failure_no_id (providerAccountID : String) (cfg : CreateConfig)
    (createCall : CreateGroupInput → Except AWSError CreateGroupOutput)
    (describeCall : DescribeGroupInput → Except AWSError DescribeGroupOutput)
    (s : GroupResourceState) (e : AWSError)
    (h : createCall
      { awsAccountId := cfg.awsAccountIDCfg.getD providerAccountID,
        ns := cfg.nsCfg.getD DefaultGroupNamespace,
        groupName := cfg.groupName,
        description := cfg.description } = Except.error e) :
    resourceGroupCreate providerAccountID cfg createCall describeCall s =
      (["creating QuickSight Group: " ++ awsErrMsg e], s) := by
  rcases cfg with ⟨accCfg, nsCfg, gName, desc⟩
  rcases accCfg with _ | acc <;> rcases nsCfg with _ | nsv <;>
    simp only [Option.getD] at h ⊢ <;>
    simp [resourceGroupCreate, h]

/-- C4 witness: a failing create call on a fresh state leaves the
identifier empty. -/
theorem create_failure_no_id_witness :
    resourceGroupCreate "999999999999" ⟨none, none, "team", none⟩
        (fun _ => Except.error (AWSError.other "throttled"))
        (fun _ => Except.error AWSError.resourceNotFound)
        ⟨"", none, none, none, none, none⟩ =
      (["creating QuickSight Group: " ++ "throttled"],
        ⟨"", none, none, none, none, none⟩) :=
  create_failure_no_id "999999999999" ⟨none, none, "team", none⟩
    (fun _ => Except.error (AWSError.other "throttled"))
    (fun _ => Except.error AWSError.resourceNotFound)
    ⟨"", none, none, none, none, none⟩ (AWSError.other "throttled") rfl

/-- C5: a read whose describe call reports not-found clears the stored
identifier and returns no diagnostics when the resource is not new,
and reports the error (state untouched) when it is new. -/
theorem read_not_found_clears_state
    (dc : DescribeGroupInput → Except AWSError DescribeGroupOutput)
    (s : GroupResourceState) (a n g : String)
    (hp : GroupParseID s.id = Except.ok (a, n, g))
    (hd : dc ⟨a, n, g⟩ = Except.error AWSError.resourceNotFound) :
    resourceGroupRead false dc s = ([], { s with id := "" }) ∧
    resourceGroupRead true dc s =
      (["reading QuickSight Group (" ++ s.id ++ "): " ++
        awsErrMsg AWSError.resourceNotFound], s) := by
  constructor
  · simp [resourceGroupRead, hp, hd, isResourceNotFound]
  · simp [resourceGroupRead, hp, hd, isResourceNotFound]

/-- C5 witness: not-found read on a non-new resource with identifier
`"a/n/g"` empties the identifier; the same read on a new resource
reports the error. -/
theorem read_not_found_clears_state_witness :
    resourceGroupRead false (fun _ => Except.error AWSError.resourceNotFound)
        ⟨"a/n/g", none, none, none, none, none⟩ =
      ([], ⟨"", none, none, none, none, none⟩) ∧
    resourceGroupRead true (fun _ => Except.error AWSError.resourceNotFound)
        ⟨"a/n/g", none, none, none, none, none⟩ =
      (["reading QuickSight Group (" ++ "a/n/g" ++ "): " ++
          awsErrMsg AWSError.resourceNotFound],
        ⟨"a/n/g", none, none, none, none, none⟩) :=
  read_not_found_clears_state (fun _ => Except.error AWSError.resourceNotFound)
    ⟨"a/n/g", none, none, none, none, none⟩ "a" "n" "g" rfl rfl

/-- C6: deleting a well-formed identifier whose remote delete call
reports not-found yields no diagnostics; any other delete-call failure
is reported. -/
theorem delete_idempotent
    (delc : DeleteGroupInput → Except AWSError Unit)
    (s : GroupResourceState) (a n g : String)
    (hp : GroupParseID s.id = Except.ok (a, n, g)) :
    (delc ⟨a, n, g⟩ = Except.error AWSError.resourceNotFound →
      resourceGroupDelete delc s = []) ∧
    (∀ m, delc ⟨a, n, g⟩ = Except.error (AWSError.other m) →
      resourceGroupDelete delc s =
        ["deleting QuickSight Group " ++ s.id ++ ": " ++ m]) := by
  constructor
  · intro hd
    simp [resourceGroupDelete, hp, hd, isResourceNotFound]
  · intro m hd
    simp [resourceGroupDelete, hp, hd, isResourceNotFound, awsErrMsg]

/-- C6 witness: deleting `"a/n/g"` when the remote entity is already
absent yields no error. -/
theorem delete_idempotent_witness :
    ((fun (_ : DeleteGroupInput) => Except.error (α := Unit) AWSError.resourceNotFound)
        ⟨"a", "n", "g"⟩ = Except.error AWSError.resourceNotFound →
      resourceGroupDelete (fun _ => Except.error AWSError.resourceNotFound)
        ⟨"a/n/g", none, none, none, none, none⟩ = []) ∧
    (∀ m, (fun (_ : DeleteGroupInput) => Except.error (α := Unit) AWSError.resourceNotFound)
        ⟨"a", "n", "g"⟩ = Except.error (AWSError.other m) →
      resourceGroupDelete (fun _ => Except.error AWSError.resourceNotFound)
        ⟨"a/n/g", none, none, none, none, none⟩ =
        ["deleting QuickSight Group " ++ "a/n/g" ++ ": " ++ m]) :=
  delete_idempotent (fun _ => Except.error AWSError.resourceNotFound)
    ⟨"a/n/g", none, none, none, none, none⟩ "a" "n" "g" rfl

/-- C7: a successful read sets arn, group name and description from
the describe response and account id and namespace from the parsed
identifier (in particular the stored namespace is the identifier's
middle segment, not a response field). -/
theorem read_success_populates (isNew : Bool)
    (dc : DescribeGroupInput → Except AWSError DescribeGroupOutput)
    (s : GroupResourceState) (a n g : String) (resp : DescribeGroupOutput)
    (hp : GroupParseID s.id = Except.ok (a, n, g))
    (hd : dc ⟨a, n, g⟩ = Except.ok resp) :
    resourceGroupRead isNew dc s =
      ([], { s with
        arn := resp.group.arn,
        awsAccountID := some a,
        groupName := resp.group.groupName,
        description := resp.group.description,
        ns := some n }) := by
  simp [resourceGroupRead, hp, hd]

/-- C7 witness: a concrete successful read. -/
theorem read_success_populates_witness :
    resourceGroupRead false
        (fun _ => Except.ok ⟨⟨some "arn:g", some "g", some "d"⟩⟩)
        ⟨"a/n/g", none, none, none, none, none⟩ =
      ([], ⟨"a/n/g", some "arn:g", some "a", some "g", some "d", some "n"⟩) :=
  read_success_populates false
    (fun _ => Except.ok ⟨⟨some "arn:g", some "g", some "d"⟩⟩)
    ⟨"a/n/g", none, none, none, none, none⟩ "a" "n" "g"
    ⟨⟨some "arn:g", some "g", some "d"⟩⟩ rfl rfl

/-- C8: for a well-formed identifier the update request carries the
parsed account id, namespace and group name, and the configured
description exactly when one is set. -/
theorem update_request_components (dOk : Option String)
    (uc : UpdateGroupInput → Except AWSError Unit)
    (dc : DescribeGroupInput → Except AWSError DescribeGroupOutput)
    (s : GroupResourceState) (a n g : String)
    (hp : GroupParseID s.id = Except.ok (a, n, g)) :
    (resourceGroupUpdate dOk uc dc s).2.2 =
      some { awsAccountId := a, ns := n, groupName := g, description := dOk } := by
  rcases hu : uc { awsAccountId := a, ns := n, groupName := g, description := dOk }
    with err | _
  · simp [resourceGroupUpdate, hp, hu]
  · simp [resourceGroupUpdate, hp, hu]

/-- C8 witness: a concrete update request, description set. -/
theorem update_request_components_witness :
    (resourceGroupUpdate (some "desc") (fun _ => Except.ok ())
        (fun _ => Except.error AWSError.resourceNotFound)
        ⟨"a/n/g", none, none, none, none, none⟩).2.2 =
      some ⟨"a", "n", "g", some "desc"⟩ :=
  update_request_components (some "desc") (fun _ => Except.ok ())
    (fun _ => Except.error AWSError.resourceNotFound)
    ⟨"a/n/g", none, none, none, none, none⟩ "a" "n" "g" rfl

/-- C9: the namespace validator accepts exactly the strings of length
1 to 63 all of whose characters lie in `[a-zA-Z0-9._-]`. -/
theorem namespaceValidate_characterization (v : String) :
    namespaceValidate v = true ↔
      1 ≤ v.data.length ∧ v.data.length ≤ 63 ∧
        ∀ c ∈ v.data,
          ('a' ≤ c ∧ c ≤ 'z') ∨ ('A' ≤ c ∧ c ≤ 'Z') ∨ ('0' ≤ c ∧ c ≤ '9') ∨
            c = '.' ∨ c = '_' ∨ c = '-' := by
  simp [namespaceValidate, stringLenBetween, stringMatchNamespacePattern,
    namespaceCharOK, List.all_eq_true, Bool.and_eq_true, decide_eq_true_eq,
    and_assoc, or_assoc]

end QuickSightGroup
